import Mathlib

/-!
Shallow embedding of the authenticated-call core of the SpotifyMCP2
repository: the OAuth2 token lifecycle manager (`src/auth.ts`, class
`SpotifyAuth`) and the retry/backoff executor (`spotify_api.ts`, class
`SpotifyApiClient`, methods `executeWithRetry` and `handleError`).

Conventions of the embedding:
- JavaScript `a || b` on possibly-absent values is modelled by `jsOrNat` /
  `jsOrStr`, which treat `0` and the empty string as falsy, like JS.
- Timestamps (`Date.now()`, `expiresAt`) are integers in milliseconds.
- An asynchronous remote call is modelled by passing its outcome in as an
  `Except String _` argument (the `String` is the message of the raised
  error); mutation of `this.tokenMetadata` is modelled by explicit state
  passing, with each method returning the state as it is when the method
  returns or throws.
- The wrapped business operation of `executeWithRetry` is a function from
  the invocation index (0-based count of calls made so far) to an outcome;
  `refreshAccessToken` as seen from the executor is likewise a function
  from the refresh-call index to success or a raised message.
- The `retry-after` header is modelled as `Option Nat`: `some s` when a
  truthy header string parsing to `s` seconds is present, `none` when the
  header is absent or empty (falsy in JS).
- Traces record the observable effects the spec talks about: number of
  operation invocations, number of refresh calls, and the list of backoff
  sleep durations in order.
-/

deriving instance DecidableEq for Except

namespace SpotifyMCP

/-- JS `a || b` for optional numbers: `0` is falsy. -/
def jsOrNat (a b : Option Nat) : Option Nat :=
  match a with
  | some 0 => b
  | some n => some n
  | none => b

/-- JS `a || b` for optional strings: the empty string is falsy. -/
def jsOrStr (a b : Option String) : Option String :=
  match a with
  | some "" => b
  | some s => some s
  | none => b

/-! ### auth.ts -/

/-- `SPOTIFY_SCOPES` from `src/auth.ts`. -/
def SPOTIFY_SCOPES : List String :=
  ["user-read-playback-state",
   "user-modify-playback-state",
   "user-read-currently-playing",
   "playlist-read-private",
   "playlist-read-collaborative",
   "user-library-read"]

/-- `interface TokenMetadata` from `src/auth.ts`. -/
structure TokenMetadata where
  accessToken : String
  refreshToken : String
  /-- Unix timestamp in milliseconds. -/
  expiresAt : Int
deriving Repr, DecidableEq

/-- The mutable state of a `SpotifyAuth` instance: `this.tokenMetadata`.
(The mirror copies kept in the `SpotifyWebApi` client object are not part
of the credential state and are not modelled.) -/
structure AuthState where
  tokenMetadata : Option TokenMetadata
deriving Repr, DecidableEq

/-- The construction-time configuration (`SpotifyConfig`): only the
optional seed refresh token affects credential state. -/
structure SpotifyConfig where
  refreshToken : Option String
deriving Repr, DecidableEq

/-- The `SpotifyAuth` constructor: seeds `tokenMetadata` iff a truthy
refresh token is supplied (`if (config.refreshToken)`). -/
def mkSpotifyAuth (config : SpotifyConfig) : AuthState :=
  match config.refreshToken with
  | some rt => if rt = "" then ⟨none⟩ else ⟨some ⟨"", rt, 0⟩⟩
  | none => ⟨none⟩

/-- `TokenResponse` from `src/types.ts`. -/
structure TokenResponse where
  access_token : String
  token_type : String
  expires_in : Nat
  refresh_token : Option String
  scope : String
deriving Repr, DecidableEq

/-- `data.body` of a successful `authorizationCodeGrant` call. -/
structure ExchangeBody where
  access_token : String
  token_type : String
  expires_in : Nat
  refresh_token : String
  scope : String
deriving Repr, DecidableEq

/-- `data.body` of a successful remote `refreshAccessToken` call; the
remote may omit `refresh_token` and `scope`. -/
structure RefreshBody where
  access_token : String
  token_type : String
  expires_in : Nat
  refresh_token : Option String
  scope : Option String
deriving Repr, DecidableEq

/-- Result of `exchangeCodeForToken`: the returned value or raised error
message, and the credential state on return. -/
structure ExchangeResult where
  outcome : Except String TokenResponse
  state : AuthState
deriving Repr, DecidableEq

/-- `SpotifyAuth.exchangeCodeForToken` from `src/auth.ts` (lines 84-115).
`remote` is the outcome of `this.spotifyApi.authorizationCodeGrant(code)`;
on its failure the method wraps the message and rethrows, having mutated
nothing. -/
def exchangeCodeForToken (s : AuthState) (now : Int)
    (remote : Except String ExchangeBody) : ExchangeResult :=
  match remote with
  | .error msg =>
    ⟨.error ("Failed to exchange authorization code for token: " ++ msg), s⟩
  | .ok b =>
    let tr : TokenResponse :=
      ⟨b.access_token, b.token_type, b.expires_in, some b.refresh_token, b.scope⟩
    ⟨.ok tr, ⟨some ⟨b.access_token, b.refresh_token, now + b.expires_in * 1000⟩⟩⟩

/-- Result of `refreshAccessToken`: outcome, state on return, and how many
network calls were made (0 or 1). -/
structure RefreshResult where
  outcome : Except String TokenResponse
  state : AuthState
  networkCalls : Nat
deriving Repr, DecidableEq

/-- `SpotifyAuth.refreshAccessToken` from `src/auth.ts` (lines 126-163).
The guard `if (!this.tokenMetadata?.refreshToken)` throws before any
network call when no metadata is held or the held refresh token is falsy.
On remote success, `refresh_token` falls back to the held one and `scope`
falls back to the space-joined `SPOTIFY_SCOPES` via JS `||`. -/
def refreshAccessToken (s : AuthState) (now : Int)
    (remote : Except String RefreshBody) : RefreshResult :=
  match s.tokenMetadata with
  | none =>
    ⟨.error "No refresh token available. Please authorize the application first.", s, 0⟩
  | some m =>
    if m.refreshToken = "" then
      ⟨.error "No refresh token available. Please authorize the application first.", s, 0⟩
    else
      match remote with
      | .error msg => ⟨.error ("Failed to refresh access token: " ++ msg), s, 1⟩
      | .ok b =>
        let newRefresh := (jsOrStr b.refresh_token (some m.refreshToken)).getD ""
        let newScope :=
          (jsOrStr b.scope (some (String.intercalate " " SPOTIFY_SCOPES))).getD ""
        let tr : TokenResponse :=
          ⟨b.access_token, b.token_type, b.expires_in, some newRefresh, newScope⟩
        ⟨.ok tr, ⟨some ⟨b.access_token, newRefresh, now + b.expires_in * 1000⟩⟩, 1⟩

/-- `SpotifyAuth.isTokenExpired` from `src/auth.ts` (lines 175-183). -/
def isTokenExpired (s : AuthState) (now : Int) : Bool :=
  match s.tokenMetadata with
  | none => true
  | some m => decide (now ≥ m.expiresAt - 60 * 1000)

/-- Result of `ensureValidToken`: outcome (the access token or raised
message), state on return, and network calls made. -/
structure EnsureResult where
  outcome : Except String String
  state : AuthState
  networkCalls : Nat
deriving Repr, DecidableEq

/-- The defensive `if (!this.tokenMetadata?.accessToken) throw` tail of
`ensureValidToken`, factored out: given the state after the freshness
step, return the access token or the no-access-token error. -/
def accessTokenOf (s : AuthState) : Except String String :=
  match s.tokenMetadata with
  | some m =>
    if m.accessToken = "" then
      .error "No access token available. Please authorize the application first."
    else .ok m.accessToken
  | none => .error "No access token available. Please authorize the application first."

/-- `SpotifyAuth.ensureValidToken` from `src/auth.ts` (lines 194-204):
refresh when expired (propagating its failure), then return the held
access token, throwing defensively when none is present. -/
def ensureValidToken (s : AuthState) (now : Int)
    (remote : Except String RefreshBody) : EnsureResult :=
  if isTokenExpired s now then
    let r := refreshAccessToken s now remote
    match r.outcome with
    | .error msg => ⟨.error msg, r.state, r.networkCalls⟩
    | .ok _ => ⟨accessTokenOf r.state, r.state, r.networkCalls⟩
  else
    ⟨accessTokenOf s, s, 0⟩

/-! ### spotify_api.ts: retry executor -/

/-- `interface RetryConfig`. -/
structure RetryConfig where
  maxRetries : Nat
  initialDelayMs : Nat
  maxDelayMs : Nat
  backoffMultiplier : Nat
deriving Repr, DecidableEq

/-- `DEFAULT_RETRY_CONFIG`. -/
def DEFAULT_RETRY_CONFIG : RetryConfig :=
  { maxRetries := 3, initialDelayMs := 1000, maxDelayMs := 10000, backoffMultiplier := 2 }

/-- The failure shape of a remote operation as `executeWithRetry` and
`handleError` inspect it: `error.statusCode`, `error.body.error.status`,
the parsed truthy `retry-after` header, `error.body.error.message` and
`error.message`. -/
structure RemoteError where
  statusCode : Option Nat
  bodyStatus : Option Nat
  retryAfter : Option Nat
  bodyMessage : Option String
  errMessage : Option String
deriving Repr, DecidableEq

/-- `error?.statusCode || error?.body?.error?.status`. -/
def RemoteError.status (e : RemoteError) : Option Nat :=
  jsOrNat e.statusCode e.bodyStatus

/-- The JS chain: body message, else error message, else the literal
Unknown-error fallback (empty strings are falsy). -/
def RemoteError.resolvedMessage (e : RemoteError) : String :=
  (jsOrStr e.bodyMessage (jsOrStr e.errMessage (some "Unknown error"))).getD ""

/-- `SpotifyApiError` as observable data: the friendly message and the
status code it carries (the wrapped original error is kept abstract). -/
structure SpotifyApiError where
  message : String
  statusCode : Option Nat
deriving Repr, DecidableEq

/-- `SpotifyApiClient.handleError` (spotify_api.ts lines 401-430): map the
status code to a user-facing message. -/
def handleError (e : RemoteError) (operationName : String) : SpotifyApiError :=
  let friendly : String :=
    match e.status with
    | some 401 => "Authentication failed. Please re-authorize the application."
    | some 403 => "Access forbidden. You may not have the required permissions."
    | some 404 => "Resource not found. Please check the provided ID or URI."
    | some 429 => "Rate limit exceeded. Please try again later."
    | some 500 => "Spotify service is temporarily unavailable. Please try again later."
    | some 502 => "Spotify service is temporarily unavailable. Please try again later."
    | some 503 => "Spotify service is temporarily unavailable. Please try again later."
    | _ => "Failed to " ++ operationName ++ ": " ++ e.resolvedMessage
  ⟨friendly, e.status⟩

/-- Outcome of one invocation of the wrapped operation. -/
inductive Outcome (T : Type) where
  | ok : T → Outcome T
  | err : RemoteError → Outcome T
deriving Repr, DecidableEq

/-- How a `run()` invocation terminates: the operation result, a
classified `SpotifyApiError` thrown via `handleError`, or an unclassified
error propagated raw (from `ensureValidToken` or a failing mid-loop
`refreshAccessToken`). -/
inductive RunResult (T : Type) where
  | success : T → RunResult T
  | apiError : SpotifyApiError → RunResult T
  | rawError : String → RunResult T
deriving Repr, DecidableEq

/-- Observable trace of one `executeWithRetry` run. -/
structure RunTrace (T : Type) where
  result : RunResult T
  invocations : Nat
  refreshCalls : Nat
  waits : List Nat
deriving Repr, DecidableEq

/-- The `for (let attempt = 0; attempt <= maxRetries; attempt++)` loop of
`executeWithRetry` (spotify_api.ts lines 343-396). `fuel` is the number of
loop iterations still permitted (`maxRetries + 1 - attempt`); `fuel = 0`
is loop exit, which throws `handleError(lastError)`. Every `continue` in
the source — the 401 refresh path included — runs the `attempt++` update,
so each recursive call increments `attempt` and burns one unit of fuel.
`inv` counts invocations made so far (one per iteration, so `op` is
indexed by `inv`), `rc` counts refresh calls, `waits` accumulates sleep
durations in order. -/
def retryLoop {T : Type} (cfg : RetryConfig) (op : Nat → Outcome T)
    (refresh : Nat → Except String Unit) (operationName : String) :
    Nat → Nat → Nat → Nat → Nat → List Nat → Option RemoteError → RunTrace T
  | 0, _attempt, _delay, inv, rc, waits, last =>
    match last with
    | some e => ⟨.apiError (handleError e operationName), inv, rc, waits⟩
    | none => ⟨.rawError "unreachable: loop exited with no recorded error", inv, rc, waits⟩
  | fuel + 1, attempt, delay, inv, rc, waits, _last =>
    match op inv with
    | .ok v => ⟨.success v, inv + 1, rc, waits⟩
    | .err e =>
      if e.status = some 401 then
        match refresh rc with
        | .error msg => ⟨.rawError msg, inv + 1, rc + 1, waits⟩
        | .ok _ =>
          retryLoop cfg op refresh operationName fuel (attempt + 1) delay
            (inv + 1) (rc + 1) waits (some e)
      else if e.status = some 429 then
        if attempt < cfg.maxRetries then
          let waitTime :=
            match e.retryAfter with
            | some s => s * 1000
            | none => min delay cfg.maxDelayMs
          retryLoop cfg op refresh operationName fuel (attempt + 1)
            (delay * cfg.backoffMultiplier) (inv + 1) rc (waits ++ [waitTime]) (some e)
        else ⟨.apiError (handleError e operationName), inv + 1, rc, waits⟩
      else if e.status = some 503 then
        if attempt < cfg.maxRetries then
          retryLoop cfg op refresh operationName fuel (attempt + 1)
            (delay * cfg.backoffMultiplier) (inv + 1) rc
            (waits ++ [min delay cfg.maxDelayMs]) (some e)
        else ⟨.apiError (handleError e operationName), inv + 1, rc, waits⟩
      else ⟨.apiError (handleError e operationName), inv + 1, rc, waits⟩

/-- `SpotifyApiClient.executeWithRetry` (spotify_api.ts lines 333-396):
`ensure` is the outcome of the single up-front `ensureValidToken()` call
(its failure propagates raw, before any invocation); then the attempt loop
runs with `attempt = 0` and `delay = initialDelayMs`. -/
def executeWithRetry {T : Type} (cfg : RetryConfig) (ensure : Except String Unit)
    (op : Nat → Outcome T) (refresh : Nat → Except String Unit)
    (operationName : String) : RunTrace T :=
  match ensure with
  | .error msg => ⟨.rawError msg, 0, 0, []⟩
  | .ok _ => retryLoop cfg op refresh operationName (cfg.maxRetries + 1) 0
      cfg.initialDelayMs 0 0 [] none

/-- JS truthiness of `this.tokenMetadata?.accessToken`: an access token is
held iff metadata exists and its access token is non-empty. -/
def hasAccessToken (s : AuthState) : Bool :=
  match s.tokenMetadata with
  | some m => m.accessToken != ""
  | none => false

/-! ### Theorems -/

/-- C7: `isTokenExpired` returns true iff no credential is held or
`now >= expiresAt - 60s`; a held credential expiring within 60 seconds of
now (inclusive) or in the past reports expired, one expiring strictly more
than 60 seconds out reports fresh. -/
theorem isTokenExpired_spec (now : Int) (s : AuthState) :
    (isTokenExpired s now = true ↔
      s.tokenMetadata = none ∨
        ∃ m, s.tokenMetadata = some m ∧ now ≥ m.expiresAt - 60 * 1000) ∧
    (∀ m : TokenMetadata, s.tokenMetadata = some m →
      (m.expiresAt ≤ now + 60 * 1000 → isTokenExpired s now = true) ∧
      (now + 60 * 1000 < m.expiresAt → isTokenExpired s now = false)) := by
  obtain ⟨mo⟩ := s
  cases mo with
  | none => simp [isTokenExpired]
  | some m =>
    constructor
    · simp only [isTokenExpired]
      constructor
      · intro h
        exact Or.inr ⟨m, rfl, by simpa using h⟩
      · rintro (h | ⟨m', hm', h⟩)
        · simp at h
        · simp only [AuthState.mk.injEq, Option.some.injEq] at hm'
          subst hm'
          simpa using h
    · rintro m' hm'
      simp only [AuthState.mk.injEq, Option.some.injEq] at hm'
      subst hm'
      constructor
      · intro h
        simp only [isTokenExpired, decide_eq_true_eq]
        omega
      · intro h
        simp only [isTokenExpired, decide_eq_false_iff_not]
        omega

/-- C7 witness: a credential 50 seconds from expiry is expired; one 100
seconds from expiry is not. -/
theorem isTokenExpired_spec_witness :
    isTokenExpired ⟨some ⟨"a", "r", 100000⟩⟩ 50000 = true ∧
    isTokenExpired ⟨some ⟨"a", "r", 200000⟩⟩ 100000 = false :=
  ⟨((isTokenExpired_spec 50000 ⟨some ⟨"a", "r", 100000⟩⟩).2 _ rfl).1 (by decide),
   ((isTokenExpired_spec 100000 ⟨some ⟨"a", "r", 200000⟩⟩).2 _ rfl).2 (by decide)⟩

/-- C9: a failed authorization-code exchange raises an error wrapping the
remote message, leaves the credential state exactly as it was, and in
particular leaves no access token held when none was held before. -/
theorem exchange_failure_raises (s : AuthState) (now : Int) (msg : String) :
    (exchangeCodeForToken s now (.error msg)).outcome =
      .error ("Failed to exchange authorization code for token: " ++ msg) ∧
    (exchangeCodeForToken s now (.error msg)).state = s ∧
    (hasAccessToken s = false →
      hasAccessToken (exchangeCodeForToken s now (.error msg)).state = false) := by
  refine ⟨rfl, rfl, ?_⟩
  intro h
  simpa [exchangeCodeForToken] using h

/-- C9 witness: concrete failed exchange on a freshly-seeded state. -/
theorem exchange_failure_raises_witness :
    (exchangeCodeForToken ⟨some ⟨"", "seed", 0⟩⟩ 0 (.error "invalid_grant")).outcome =
      .error "Failed to exchange authorization code for token: invalid_grant" ∧
    (exchangeCodeForToken ⟨some ⟨"", "seed", 0⟩⟩ 0 (.error "invalid_grant")).state =
      ⟨some ⟨"", "seed", 0⟩⟩ ∧
    hasAccessToken (exchangeCodeForToken ⟨some ⟨"", "seed", 0⟩⟩ 0
      (.error "invalid_grant")).state = false :=
  ⟨(exchange_failure_raises ⟨some ⟨"", "seed", 0⟩⟩ 0 "invalid_grant").1,
   (exchange_failure_raises ⟨some ⟨"", "seed", 0⟩⟩ 0 "invalid_grant").2.1,
   (exchange_failure_raises ⟨some ⟨"", "seed", 0⟩⟩ 0 "invalid_grant").2.2 rfl⟩

/-- C10: `refreshAccessToken` is atomic on failure — whenever it raises
(no refresh token held, or the remote rejected the refresh), the
credential state on return is exactly the state before the call. -/
theorem refresh_atomic_on_failure (s : AuthState) (now : Int)
    (remote : Except String RefreshBody) (msg : String)
    (h : (refreshAccessToken s now remote).outcome = .error msg) :
    (refreshAccessToken s now remote).state = s := by
  obtain ⟨mo⟩ := s
  cases mo with
  | none => rfl
  | some m =>
    by_cases hrt : m.refreshToken = ""
    · simp [refreshAccessToken, hrt]
    · cases remote with
      | error e => simp [refreshAccessToken, hrt]
      | ok b => simp [refreshAccessToken, hrt] at h

/-- C10 witness: the remote rejecting the refresh leaves the held
credential untouched. -/
theorem refresh_atomic_on_failure_witness :
    (refreshAccessToken ⟨some ⟨"acc", "ref", 99⟩⟩ 5 (.error "revoked")).outcome =
      .error "Failed to refresh access token: revoked" ∧
    (refreshAccessToken ⟨some ⟨"acc", "ref", 99⟩⟩ 5 (.error "revoked")).state =
      ⟨some ⟨"acc", "ref", 99⟩⟩ :=
  ⟨rfl, refresh_atomic_on_failure ⟨some ⟨"acc", "ref", 99⟩⟩ 5 (.error "revoked")
    "Failed to refresh access token: revoked" rfl⟩

/-- C6: `run()` consults `ensureValidToken` once before the first attempt
and its failure propagates with the operation never invoked; and a
`SpotifyAuth` constructed with no refresh token fails `ensureValidToken`
with the no-refresh-token error while making zero network calls. -/
theorem ensureFresh_guard :
    (∀ (cfg : RetryConfig) (op : Nat → Outcome Nat)
        (refresh : Nat → Except String Unit) (name msg : String),
      executeWithRetry cfg (.error msg) op refresh name = ⟨.rawError msg, 0, 0, []⟩) ∧
    (∀ (now : Int) (remote : Except String RefreshBody),
      (ensureValidToken (mkSpotifyAuth ⟨none⟩) now remote).outcome =
        .error "No refresh token available. Please authorize the application first." ∧
      (ensureValidToken (mkSpotifyAuth ⟨none⟩) now remote).networkCalls = 0) :=
  ⟨fun _ _ _ _ _ => rfl, fun _ _ => ⟨rfl, rfl⟩⟩

/-- C6 witness: a concrete failing pre-flight check yields zero
invocations, and the empty token manager raises the no-refresh-token
error with zero network calls. -/
theorem ensureFresh_guard_witness :
    executeWithRetry DEFAULT_RETRY_CONFIG (.error "no token")
      (fun _ => .ok 7) (fun _ => .ok ()) "search tracks" =
        ⟨.rawError "no token", 0, 0, []⟩ ∧
    (ensureValidToken (mkSpotifyAuth ⟨none⟩) 12345 (.ok ⟨"a", "Bearer", 3600, none, none⟩)).outcome =
      .error "No refresh token available. Please authorize the application first." ∧
    (ensureValidToken (mkSpotifyAuth ⟨none⟩) 12345 (.ok ⟨"a", "Bearer", 3600, none, none⟩)).networkCalls = 0 :=
  ⟨ensureFresh_guard.1 DEFAULT_RETRY_CONFIG (fun _ => .ok 7) (fun _ => .ok ()) "search tracks" "no token",
   (ensureFresh_guard.2 12345 (.ok ⟨"a", "Bearer", 3600, none, none⟩)).1,
   (ensureFresh_guard.2 12345 (.ok ⟨"a", "Bearer", 3600, none, none⟩)).2⟩

/-- C8 counterexample: the previously-recorded scope is NOT retained when
a refresh response omits scope. A first refresh records scope
"user-top-read"; a second refresh omitting scope returns the fixed
`SPOTIFY_SCOPES` join, which differs from "user-top-read". -/
theorem refresh_scope_not_previous :
    (refreshAccessToken
      (refreshAccessToken ⟨some ⟨"oldAccess", "oldRefresh", 0⟩⟩ 1000
        (.ok ⟨"acc1", "Bearer", 3600, none, some "user-top-read"⟩)).state 2000
      (.ok ⟨"acc2", "Bearer", 3600, none, none⟩)).outcome =
      .ok ⟨"acc2", "Bearer", 3600, some "oldRefresh",
        "user-read-playback-state user-modify-playback-state user-read-currently-playing playlist-read-private playlist-read-collaborative user-library-read"⟩ ∧
    "user-read-playback-state user-modify-playback-state user-read-currently-playing playlist-read-private playlist-read-collaborative user-library-read" ≠
      "user-top-read" :=
  ⟨rfl, by decide⟩

/-- C8 (amended): after a successful refresh whose response omits a new
refresh token, the held refresh token is unchanged; and when the response
omits scope, the returned scope is the fixed requested `SPOTIFY_SCOPES`
list joined with spaces (not any previously-recorded scope). -/
theorem refresh_retention (s : AuthState) (m : TokenMetadata) (now : Int)
    (b : RefreshBody) (hm : s.tokenMetadata = some m)
    (hrt : m.refreshToken ≠ "") (hno : b.refresh_token = none) :
    ∃ tr, (refreshAccessToken s now (.ok b)).outcome = .ok tr ∧
      tr.refresh_token = some m.refreshToken ∧
      ((refreshAccessToken s now (.ok b)).state).tokenMetadata =
        some ⟨b.access_token, m.refreshToken, now + b.expires_in * 1000⟩ ∧
      (b.scope = none → tr.scope = String.intercalate " " SPOTIFY_SCOPES) := by
  obtain ⟨mo⟩ := s
  simp only [AuthState.mk.injEq] at hm
  subst hm
  refine ⟨⟨b.access_token, b.token_type, b.expires_in, some m.refreshToken,
    (jsOrStr b.scope (some (String.intercalate " " SPOTIFY_SCOPES))).getD ""⟩, ?_, rfl, ?_, ?_⟩
  · simp [refreshAccessToken, hrt, hno, jsOrStr]
  · simp [refreshAccessToken, hrt, hno, jsOrStr]
  · intro hs
    simp [hs, jsOrStr]

/-- C8 witness: concrete refresh omitting both refresh token and scope. -/
theorem refresh_retention_witness :
    ∃ tr, (refreshAccessToken ⟨some ⟨"oldA", "keepme", 0⟩⟩ 500
        (.ok ⟨"newA", "Bearer", 3600, none, none⟩)).outcome = .ok tr ∧
      tr.refresh_token = some "keepme" ∧
      ((refreshAccessToken ⟨some ⟨"oldA", "keepme", 0⟩⟩ 500
        (.ok ⟨"newA", "Bearer", 3600, none, none⟩)).state).tokenMetadata =
        some ⟨"newA", "keepme", 500 + 3600 * 1000⟩ ∧
      (RefreshBody.scope ⟨"newA", "Bearer", 3600, none, none⟩ = none →
        tr.scope = String.intercalate " " SPOTIFY_SCOPES) :=
  refresh_retention ⟨some ⟨"oldA", "keepme", 0⟩⟩ ⟨"oldA", "keepme", 0⟩ 500
    ⟨"newA", "Bearer", 3600, none, none⟩ rfl (by decide) rfl

/-- When every invocation fails with status 429, the loop retries with
backoff while `attempt < maxRetries` and throws the rate-limit
`SpotifyApiError` at `attempt = maxRetries`, having invoked the operation
once per remaining fuel unit and never calling refresh. -/
lemma retryLoop_always429 {T : Type} (cfg : RetryConfig) (op : Nat → Outcome T)
    (refresh : Nat → Except String Unit) (name : String)
    (h : ∀ i, ∃ e, op i = .err e ∧ e.status = some 429) :
    ∀ fuel attempt delay inv rc waits last,
      fuel + attempt = cfg.maxRetries + 1 → 1 ≤ fuel →
      (retryLoop cfg op refresh name fuel attempt delay inv rc waits last).result =
        .apiError ⟨"Rate limit exceeded. Please try again later.", some 429⟩ ∧
      (retryLoop cfg op refresh name fuel attempt delay inv rc waits last).invocations =
        inv + fuel ∧
      (retryLoop cfg op refresh name fuel attempt delay inv rc waits last).refreshCalls =
        rc := by
  intro fuel
  induction fuel with
  | zero => intro attempt delay inv rc waits last hfa h1; omega
  | succ f ih =>
    intro attempt delay inv rc waits last hfa _h1
    obtain ⟨e, hop, he⟩ := h inv
    by_cases hlt : attempt < cfg.maxRetries
    · have hrec := ih (attempt + 1) (delay * cfg.backoffMultiplier) (inv + 1) rc
        (waits ++ [match e.retryAfter with
          | some s => s * 1000
          | none => min delay cfg.maxDelayMs]) (some e) (by omega) (by omega)
      simp only [retryLoop, hop, he, if_pos hlt] at hrec ⊢
      norm_num at hrec ⊢
      exact ⟨hrec.1, by omega, hrec.2.2⟩
    · have hf : f = 0 := by omega
      subst hf
      simp only [retryLoop, hop, he, if_neg hlt]
      norm_num [handleError]
      simp [he]

/-- C1: for every retry policy, an operation failing with status 429 on
every invocation is invoked exactly `maxRetries + 1` times and `run()`
raises the classified rate-limit error; with `maxRetries = 3` that is 4
invocations. -/
theorem run_429_exhaustion {T : Type} (cfg : RetryConfig) (op : Nat → Outcome T)
    (refresh : Nat → Except String Unit) (name : String)
    (h : ∀ i, ∃ e, op i = .err e ∧ e.status = some 429) :
    (executeWithRetry cfg (.ok ()) op refresh name).invocations = cfg.maxRetries + 1 ∧
    (executeWithRetry cfg (.ok ()) op refresh name).result =
      .apiError ⟨"Rate limit exceeded. Please try again later.", some 429⟩ := by
  have hr := retryLoop_always429 cfg op refresh name h (cfg.maxRetries + 1) 0
    cfg.initialDelayMs 0 0 [] none (by omega) (by omega)
  exact ⟨by simpa [executeWithRetry] using hr.2.1, by simpa [executeWithRetry] using hr.1⟩

/-- C1 witness: the default policy (`maxRetries = 3`) with an
always-429 operation makes exactly 4 invocations and raises the
rate-limit error. -/
theorem run_429_exhaustion_witness :
    (executeWithRetry DEFAULT_RETRY_CONFIG (.ok ())
        (fun _ => Outcome.err (T := Nat) ⟨some 429, none, none, none, none⟩)
        (fun _ => .ok ()) "search tracks").invocations = 4 ∧
    (executeWithRetry DEFAULT_RETRY_CONFIG (.ok ())
        (fun _ => Outcome.err (T := Nat) ⟨some 429, none, none, none, none⟩)
        (fun _ => .ok ()) "search tracks").result =
      .apiError ⟨"Rate limit exceeded. Please try again later.", some 429⟩ :=
  run_429_exhaustion DEFAULT_RETRY_CONFIG
    (fun _ => Outcome.err ⟨some 429, none, none, none, none⟩) (fun _ => .ok ())
    "search tracks" (fun _ => ⟨⟨some 429, none, none, none, none⟩, rfl, rfl⟩)

/-- A 401 failure takes the refresh-and-continue path; since the JS
`continue` still runs `attempt++`, each such retry burns one unit of fuel.
With `n` consecutive 401 failures (refresh succeeding) followed by a
success, the loop needs `n + 1` fuel to deliver the success, makes `n + 1`
invocations and `n` refresh calls, and never sleeps. -/
lemma retryLoop_401_then_ok {T : Type} (cfg : RetryConfig) (op : Nat → Outcome T)
    (refresh : Nat → Except String Unit) (name : String) (v : T) :
    ∀ n fuel attempt delay inv rc waits last,
      n + 1 ≤ fuel →
      (∀ i, i < n → ∃ e, op (inv + i) = .err e ∧ e.status = some 401) →
      op (inv + n) = .ok v →
      (∀ j, j < n → refresh (rc + j) = .ok ()) →
      (retryLoop cfg op refresh name fuel attempt delay inv rc waits last).result =
        .success v ∧
      (retryLoop cfg op refresh name fuel attempt delay inv rc waits last).invocations =
        inv + n + 1 ∧
      (retryLoop cfg op refresh name fuel attempt delay inv rc waits last).refreshCalls =
        rc + n ∧
      (retryLoop cfg op refresh name fuel attempt delay inv rc waits last).waits =
        waits := by
  intro n
  induction n with
  | zero =>
    intro fuel attempt delay inv rc waits last hfuel _h401 hok _hr
    obtain ⟨f, rfl⟩ : ∃ f, fuel = f + 1 := ⟨fuel - 1, by omega⟩
    rw [Nat.add_zero] at hok
    simp [retryLoop, hok]
  | succ m ih =>
    intro fuel attempt delay inv rc waits last hfuel h401 hok hr
    obtain ⟨f, rfl⟩ : ∃ f, fuel = f + 1 := ⟨fuel - 1, by omega⟩
    obtain ⟨e, hop, he⟩ := h401 0 (by omega)
    rw [Nat.add_zero] at hop
    have hr0 : refresh rc = .ok () := by
      have := hr 0 (by omega)
      rwa [Nat.add_zero] at this
    have h401' : ∀ i, i < m → ∃ e, op (inv + 1 + i) = .err e ∧ e.status = some 401 := by
      intro i hi
      have := h401 (i + 1) (by omega)
      rwa [show inv + (i + 1) = inv + 1 + i by omega] at this
    have hok' : op (inv + 1 + m) = .ok v := by
      rwa [show inv + (m + 1) = inv + 1 + m by omega] at hok
    have hr' : ∀ j, j < m → refresh (rc + 1 + j) = .ok () := by
      intro j hj
      have := hr (j + 1) (by omega)
      rwa [show rc + (j + 1) = rc + 1 + j by omega] at this
    have hrec := ih f (attempt + 1) delay (inv + 1) (rc + 1) waits (some e)
      (by omega) h401' hok' hr'
    simp only [retryLoop, hop, he, if_pos, hr0] at hrec ⊢
    exact ⟨hrec.1, by omega, by omega, hrec.2.2.2⟩

/-- When every invocation fails 401 and every refresh succeeds, the loop
burns all its fuel on refresh-and-retry and then throws
`handleError(lastError)` — the authentication-failed message — having made
one invocation and one refresh call per fuel unit. -/
lemma retryLoop_always401 {T : Type} (cfg : RetryConfig) (op : Nat → Outcome T)
    (refresh : Nat → Except String Unit) (name : String)
    (h : ∀ i, ∃ e, op i = .err e ∧ e.status = some 401)
    (hr : ∀ j, refresh j = .ok ()) :
    ∀ fuel attempt delay inv rc waits last, 1 ≤ fuel →
      (retryLoop cfg op refresh name fuel attempt delay inv rc waits last).result =
        .apiError ⟨"Authentication failed. Please re-authorize the application.", some 401⟩ ∧
      (retryLoop cfg op refresh name fuel attempt delay inv rc waits last).invocations =
        inv + fuel ∧
      (retryLoop cfg op refresh name fuel attempt delay inv rc waits last).refreshCalls =
        rc + fuel := by
  intro fuel
  induction fuel with
  | zero => intro attempt delay inv rc waits last h1; omega
  | succ f ih =>
    intro attempt delay inv rc waits last _h1
    obtain ⟨e, hop, he⟩ := h inv
    by_cases hf : f = 0
    · subst hf
      simp only [retryLoop, hop, he, if_pos, hr rc]
      have he' : e.status = some 401 := he
      norm_num [handleError]
      simp [he']
    · have hrec := ih (attempt + 1) delay (inv + 1) (rc + 1) waits (some e)
        (by omega)
      simp only [retryLoop, hop, he, if_pos, hr rc] at hrec ⊢
      exact ⟨hrec.1, by omega, by omega⟩

/-- C2 counterexample: a 401 retry DOES consume an attempt from the
`maxRetries` budget (the `continue` still runs `attempt++`). With the
default policy (`maxRetries = 3`), an operation failing 401 on its first
4 invocations and succeeding on invocation 5 — with refresh succeeding
each time — does not have its success returned: `run()` stops after 4
invocations and raises the authentication-failed classified error. -/
theorem run_401_consumes_attempt_counterexample :
    (executeWithRetry DEFAULT_RETRY_CONFIG (.ok ())
        (fun i => if i < 4 then Outcome.err (T := Nat) ⟨some 401, none, none, none, none⟩
          else .ok 42)
        (fun _ => .ok ()) "search tracks").result =
      .apiError ⟨"Authentication failed. Please re-authorize the application.", some 401⟩ ∧
    (executeWithRetry DEFAULT_RETRY_CONFIG (.ok ())
        (fun i => if i < 4 then Outcome.err (T := Nat) ⟨some 401, none, none, none, none⟩
          else .ok 42)
        (fun _ => .ok ()) "search tracks").result ≠ .success 42 ∧
    (executeWithRetry DEFAULT_RETRY_CONFIG (.ok ())
        (fun i => if i < 4 then Outcome.err (T := Nat) ⟨some 401, none, none, none, none⟩
          else .ok 42)
        (fun _ => .ok ()) "search tracks").invocations = 4 := by
  refine ⟨rfl, ?_, rfl⟩
  decide

/-- C2 (amended): a 401 failure triggers `TokenManager.refresh()` and an
immediate retry with no backoff wait, but the retry happens at the next
attempt index, consuming one attempt of the `maxRetries` budget: with
refresh succeeding, an operation failing 401 on its first `n` invocations
and succeeding on invocation `n + 1` has its success returned iff
`n ≤ maxRetries` — and when 401 persists on every invocation, `run()`
makes exactly `maxRetries + 1` invocations and refresh calls and raises
the authentication-failed classified error. -/
theorem run_401_budget {T : Type} (cfg : RetryConfig) :
    (∀ (op : Nat → Outcome T) (refresh : Nat → Except String Unit)
        (name : String) (v : T) (n : Nat),
      n ≤ cfg.maxRetries →
      (∀ i, i < n → ∃ e, op i = .err e ∧ e.status = some 401) →
      op n = .ok v →
      (∀ j, j < n → refresh j = .ok ()) →
      executeWithRetry cfg (.ok ()) op refresh name =
        ⟨.success v, n + 1, n, []⟩) ∧
    (∀ (op : Nat → Outcome T) (refresh : Nat → Except String Unit) (name : String),
      (∀ i, ∃ e, op i = .err e ∧ e.status = some 401) →
      (∀ j, refresh j = .ok ()) →
      (executeWithRetry cfg (.ok ()) op refresh name).result =
        .apiError ⟨"Authentication failed. Please re-authorize the application.", some 401⟩ ∧
      (executeWithRetry cfg (.ok ()) op refresh name).invocations = cfg.maxRetries + 1 ∧
      (executeWithRetry cfg (.ok ()) op refresh name).refreshCalls = cfg.maxRetries + 1) := by
  constructor
  · intro op refresh name v n hn h401 hok hr
    have h := retryLoop_401_then_ok cfg op refresh name v n (cfg.maxRetries + 1) 0
      cfg.initialDelayMs 0 0 [] none (by omega) (by simpa using h401) (by simpa using hok)
      (by simpa using hr)
    simp only [executeWithRetry] at *
    obtain ⟨h1, h2, h3, h4⟩ := h
    cases hrt : retryLoop cfg op refresh name (cfg.maxRetries + 1) 0
      cfg.initialDelayMs 0 0 [] none
    rw [hrt] at h1 h2 h3 h4
    simp_all
  · intro op refresh name h401 hr
    have h := retryLoop_always401 cfg op refresh name h401 hr (cfg.maxRetries + 1) 0
      cfg.initialDelayMs 0 0 [] none (by omega)
    simpa [executeWithRetry] using h

/-- C2 (amended) witness: with `maxRetries = 3`, three 401s then a
success yield the success after 4 invocations and 3 refreshes, while
persistent 401s end in the authentication-failed error after 4
invocations and 4 refreshes. -/
theorem run_401_budget_witness :
    executeWithRetry DEFAULT_RETRY_CONFIG (.ok ())
      (fun i => if i < 3 then Outcome.err (T := Nat) ⟨some 401, none, none, none, none⟩
        else .ok 42)
      (fun _ => .ok ()) "search tracks" = ⟨.success 42, 4, 3, []⟩ ∧
    (executeWithRetry DEFAULT_RETRY_CONFIG (.ok ())
        (fun _ => Outcome.err (T := Nat) ⟨some 401, none, none, none, none⟩)
        (fun _ => .ok ()) "search tracks").result =
      .apiError ⟨"Authentication failed. Please re-authorize the application.", some 401⟩ :=
  ⟨(run_401_budget DEFAULT_RETRY_CONFIG).1
      (fun i => if i < 3 then Outcome.err ⟨some 401, none, none, none, none⟩ else .ok 42)
      (fun _ => .ok ()) "search tracks" 42 3 (by decide)
      (fun i hi => ⟨⟨some 401, none, none, none, none⟩, by simp [hi], rfl⟩)
      (by simp) (fun _ _ => rfl),
   ((run_401_budget DEFAULT_RETRY_CONFIG).2
      (fun _ => Outcome.err ⟨some 401, none, none, none, none⟩) (fun _ => .ok ())
      "search tracks" (fun _ => ⟨⟨some 401, none, none, none, none⟩, rfl, rfl⟩)
      (fun _ => rfl)).1⟩

/-- C4: with a policy allowing at least one retry (the default allows 3),
an operation failing once with 401 and succeeding on its second
invocation has `run()` call refresh exactly once, invoke the operation
exactly twice, and return the second result, with no backoff wait. -/
theorem run_401_once_then_success {T : Type} (cfg : RetryConfig)
    (op : Nat → Outcome T) (refresh : Nat → Except String Unit) (name : String)
    (v : T) (e : RemoteError) (hmr : 1 ≤ cfg.maxRetries)
    (h0 : op 0 = .err e) (he : e.status = some 401) (h1 : op 1 = .ok v)
    (hrefresh : refresh 0 = .ok ()) :
    executeWithRetry cfg (.ok ()) op refresh name = ⟨.success v, 2, 1, []⟩ := by
  have h := retryLoop_401_then_ok cfg op refresh name v 1 (cfg.maxRetries + 1) 0
    cfg.initialDelayMs 0 0 [] none (by omega)
    (fun i hi => by
      interval_cases i
      exact ⟨e, by simpa using h0, he⟩)
    (by simpa using h1)
    (fun j hj => by
      interval_cases j
      simpa using hrefresh)
  simp only [executeWithRetry] at *
  obtain ⟨ha, hb, hc, hd⟩ := h
  cases hrt : retryLoop cfg op refresh name (cfg.maxRetries + 1) 0
    cfg.initialDelayMs 0 0 [] none
  rw [hrt] at ha hb hc hd
  simp_all

/-- C4 witness: one 401 then success under the default policy. -/
theorem run_401_once_then_success_witness :
    executeWithRetry DEFAULT_RETRY_CONFIG (.ok ())
      (fun i => if i = 0 then Outcome.err (T := Nat) ⟨some 401, none, none, none, none⟩
        else .ok 99)
      (fun _ => .ok ()) "search tracks" = ⟨.success 99, 2, 1, []⟩ :=
  run_401_once_then_success DEFAULT_RETRY_CONFIG
    (fun i => if i = 0 then Outcome.err ⟨some 401, none, none, none, none⟩ else .ok 99)
    (fun _ => .ok ()) "search tracks" 99 ⟨some 401, none, none, none, none⟩
    (by decide) rfl rfl rfl rfl

/-- One loop step on a success: return the result immediately. -/
lemma retryLoop_step_ok {T : Type} (cfg : RetryConfig) (op : Nat → Outcome T)
    (refresh : Nat → Except String Unit) (name : String) (fuel attempt delay inv rc : Nat)
    (waits : List Nat) (last : Option RemoteError) (v : T) (hop : op inv = .ok v) :
    retryLoop cfg op refresh name (fuel + 1) attempt delay inv rc waits last =
      ⟨.success v, inv + 1, rc, waits⟩ := by
  simp [retryLoop, hop]

/-- One loop step on a 429 failure carrying a retry-after hint of `s`
seconds, while retries remain: sleep exactly `s * 1000` ms, multiply the
internal delay, and continue. -/
lemma retryLoop_step429_hint {T : Type} (cfg : RetryConfig) (op : Nat → Outcome T)
    (refresh : Nat → Except String Unit) (name : String) (fuel attempt delay inv rc : Nat)
    (waits : List Nat) (last : Option RemoteError) (e : RemoteError) (s : Nat)
    (hop : op inv = .err e) (he : e.status = some 429) (hra : e.retryAfter = some s)
    (hlt : attempt < cfg.maxRetries) :
    retryLoop cfg op refresh name (fuel + 1) attempt delay inv rc waits last =
      retryLoop cfg op refresh name fuel (attempt + 1) (delay * cfg.backoffMultiplier)
        (inv + 1) rc (waits ++ [s * 1000]) (some e) := by
  simp [retryLoop, hop, he, hra, hlt]

/-- One loop step on a 503 failure while retries remain: sleep
`min delay maxDelayMs` — the retry-after field is never consulted on this
path — multiply the delay, and continue. -/
lemma retryLoop_step503 {T : Type} (cfg : RetryConfig) (op : Nat → Outcome T)
    (refresh : Nat → Except String Unit) (name : String) (fuel attempt delay inv rc : Nat)
    (waits : List Nat) (last : Option RemoteError) (e : RemoteError)
    (hop : op inv = .err e) (he : e.status = some 503)
    (hlt : attempt < cfg.maxRetries) :
    retryLoop cfg op refresh name (fuel + 1) attempt delay inv rc waits last =
      retryLoop cfg op refresh name fuel (attempt + 1) (delay * cfg.backoffMultiplier)
        (inv + 1) rc (waits ++ [min delay cfg.maxDelayMs]) (some e) := by
  simp [retryLoop, hop, he, hlt]

/-- The backoff wait produced at the head of a round is the `k = 0`
element of the wait sequence computed from the pre-multiplication delay. -/
lemma backoff_waits_shift (delay mult maxD f : Nat) (hf : 1 ≤ f) :
    min delay maxD :: (List.range (f - 1)).map
        (fun k => min (delay * mult * mult ^ k) maxD) =
      (List.range f).map (fun k => min (delay * mult ^ k) maxD) := by
  obtain ⟨g, rfl⟩ : ∃ g, f = g + 1 := ⟨f - 1, by omega⟩
  have hfun : (fun k => min (delay * mult * mult ^ k) maxD) =
      ((fun k => min (delay * mult ^ k) maxD) ∘ Nat.succ) := by
    funext k
    simp only [Function.comp_apply, pow_succ]
    congr 1
    ring
  rw [List.range_succ_eq_map, Nat.add_sub_cancel, hfun, List.map_cons, List.map_map]
  congr 1
  simp

/-- With `n` consecutive backoff-retryable failures (429 without a
retry-after hint, or 503) followed by a success, the loop returns the
success after `n + 1` invocations, and the `k`-th backoff wait (0-based)
is `min (delay * backoffMultiplier ^ k) maxDelayMs`. -/
lemma retryLoop_backoff_then_ok {T : Type} (cfg : RetryConfig) (op : Nat → Outcome T)
    (refresh : Nat → Except String Unit) (name : String) (v : T) :
    ∀ n fuel attempt delay inv rc waits last,
      n + 1 ≤ fuel → fuel + attempt = cfg.maxRetries + 1 →
      (∀ i, i < n → ∃ e, op (inv + i) = .err e ∧
        ((e.status = some 429 ∧ e.retryAfter = none) ∨ e.status = some 503)) →
      op (inv + n) = .ok v →
      (retryLoop cfg op refresh name fuel attempt delay inv rc waits last).result =
        .success v ∧
      (retryLoop cfg op refresh name fuel attempt delay inv rc waits last).invocations =
        inv + n + 1 ∧
      (retryLoop cfg op refresh name fuel attempt delay inv rc waits last).waits =
        waits ++ (List.range n).map
          (fun k => min (delay * cfg.backoffMultiplier ^ k) cfg.maxDelayMs) := by
  intro n
  induction n with
  | zero =>
    intro fuel attempt delay inv rc waits last hfuel _hfa _hfail hok
    obtain ⟨f, rfl⟩ : ∃ f, fuel = f + 1 := ⟨fuel - 1, by omega⟩
    rw [Nat.add_zero] at hok
    simp [retryLoop, hok]
  | succ m ih =>
    intro fuel attempt delay inv rc waits last hfuel hfa hfail hok
    obtain ⟨f, rfl⟩ : ∃ f, fuel = f + 1 := ⟨fuel - 1, by omega⟩
    obtain ⟨e, hop, hcase⟩ := hfail 0 (by omega)
    rw [Nat.add_zero] at hop
    have hlt : attempt < cfg.maxRetries := by omega
    have hfail' : ∀ i, i < m → ∃ e, op (inv + 1 + i) = .err e ∧
        ((e.status = some 429 ∧ e.retryAfter = none) ∨ e.status = some 503) := by
      intro i hi
      have := hfail (i + 1) (by omega)
      rwa [show inv + (i + 1) = inv + 1 + i by omega] at this
    have hok' : op (inv + 1 + m) = .ok v := by
      rwa [show inv + (m + 1) = inv + 1 + m by omega] at hok
    have hstep : retryLoop cfg op refresh name (f + 1) attempt delay inv rc waits last =
        retryLoop cfg op refresh name f (attempt + 1) (delay * cfg.backoffMultiplier)
          (inv + 1) rc (waits ++ [min delay cfg.maxDelayMs]) (some e) := by
      rcases hcase with ⟨he, hra⟩ | he
      · simp [retryLoop, hop, he, hra, hlt]
      · simp [retryLoop, hop, he, hlt]
    have hrec := ih f (attempt + 1) (delay * cfg.backoffMultiplier) (inv + 1) rc
      (waits ++ [min delay cfg.maxDelayMs]) (some e) (by omega) (by omega) hfail' hok'
    rw [hstep]
    have hs := backoff_waits_shift delay cfg.backoffMultiplier cfg.maxDelayMs (m + 1)
      (by omega)
    simp only [Nat.add_sub_cancel] at hs
    refine ⟨hrec.1, ?_, ?_⟩
    · rw [hrec.2.1]; omega
    · rw [hrec.2.2, List.append_assoc, List.singleton_append, hs]

/-- When every invocation fails with a backoff-retryable status (429
without hint, or 503), the loop performs one backoff wait per retry, the
`k`-th (0-based) lasting `min (delay * backoffMultiplier ^ k) maxDelayMs`,
until the budget is exhausted. -/
lemma retryLoop_backoff_exhaust {T : Type} (cfg : RetryConfig) (op : Nat → Outcome T)
    (refresh : Nat → Except String Unit) (name : String)
    (h : ∀ i, ∃ e, op i = .err e ∧
      ((e.status = some 429 ∧ e.retryAfter = none) ∨ e.status = some 503)) :
    ∀ fuel attempt delay inv rc waits last,
      fuel + attempt = cfg.maxRetries + 1 → 1 ≤ fuel →
      (retryLoop cfg op refresh name fuel attempt delay inv rc waits last).waits =
        waits ++ (List.range (fuel - 1)).map
          (fun k => min (delay * cfg.backoffMultiplier ^ k) cfg.maxDelayMs) := by
  intro fuel
  induction fuel with
  | zero => intro _ _ _ _ _ _ _ h1; omega
  | succ f ih =>
    intro attempt delay inv rc waits last hfa _h1
    obtain ⟨e, hop, hcase⟩ := h inv
    by_cases hlt : attempt < cfg.maxRetries
    · have hstep : retryLoop cfg op refresh name (f + 1) attempt delay inv rc waits last =
          retryLoop cfg op refresh name f (attempt + 1) (delay * cfg.backoffMultiplier)
            (inv + 1) rc (waits ++ [min delay cfg.maxDelayMs]) (some e) := by
        rcases hcase with ⟨he, hra⟩ | he
        · simp [retryLoop, hop, he, hra, hlt]
        · simp [retryLoop, hop, he, hlt]
      have hrec := ih (attempt + 1) (delay * cfg.backoffMultiplier) (inv + 1) rc
        (waits ++ [min delay cfg.maxDelayMs]) (some e) (by omega) (by omega)
      rw [hstep, hrec, List.append_assoc, List.singleton_append]
      have hs := backoff_waits_shift delay cfg.backoffMultiplier cfg.maxDelayMs f
        (by omega)
      rw [hs]
      simp
    · have hstep : retryLoop cfg op refresh name (f + 1) attempt delay inv rc waits last =
          ⟨.apiError (handleError e name), inv + 1, rc, waits⟩ := by
        rcases hcase with ⟨he, _hra⟩ | he
        · simp [retryLoop, hop, he, hlt]
        · simp [retryLoop, hop, he, hlt]
      rw [hstep]
      have hf : f = 0 := by omega
      subst hf
      simp

/-- C3: backoff arithmetic. (A) With `n ≤ maxRetries` consecutive 429/503
failures carrying no retry-after hint and then a success, the `k`-th
backoff wait (0-based) is `min (initialDelayMs * backoffMultiplier ^ k)
maxDelayMs`. (B) The same formula gives every wait when the failures
exhaust the budget. (C) A 429 failure with a retry-after hint of `s`
seconds waits exactly `s * 1000` ms for that single attempt while the
internal delay is still multiplied — the following 503 retry waits
`min (initialDelayMs * backoffMultiplier) maxDelayMs`. (D) A 503 failure
never uses a retry-after hint: its wait is `min initialDelayMs maxDelayMs`
whatever hint it carries. -/
theorem backoff_arithmetic {T : Type} (cfg : RetryConfig) :
    (∀ (op : Nat → Outcome T) (refresh : Nat → Except String Unit) (name : String)
        (v : T) (n : Nat),
      n ≤ cfg.maxRetries →
      (∀ i, i < n → ∃ e, op i = .err e ∧
        ((e.status = some 429 ∧ e.retryAfter = none) ∨ e.status = some 503)) →
      op n = .ok v →
      (executeWithRetry cfg (.ok ()) op refresh name).waits =
        (List.range n).map
          (fun k => min (cfg.initialDelayMs * cfg.backoffMultiplier ^ k) cfg.maxDelayMs) ∧
      (executeWithRetry cfg (.ok ()) op refresh name).result = .success v) ∧
    (∀ (op : Nat → Outcome T) (refresh : Nat → Except String Unit) (name : String),
      (∀ i, ∃ e, op i = .err e ∧
        ((e.status = some 429 ∧ e.retryAfter = none) ∨ e.status = some 503)) →
      (executeWithRetry cfg (.ok ()) op refresh name).waits =
        (List.range cfg.maxRetries).map
          (fun k => min (cfg.initialDelayMs * cfg.backoffMultiplier ^ k) cfg.maxDelayMs)) ∧
    (∀ (op : Nat → Outcome T) (refresh : Nat → Except String Unit) (name : String)
        (v : T) (s : Nat) (e0 e1 : RemoteError),
      2 ≤ cfg.maxRetries →
      op 0 = .err e0 → e0.status = some 429 → e0.retryAfter = some s →
      op 1 = .err e1 → e1.status = some 503 → op 2 = .ok v →
      (executeWithRetry cfg (.ok ()) op refresh name).waits =
        [s * 1000, min (cfg.initialDelayMs * cfg.backoffMultiplier) cfg.maxDelayMs]) ∧
    (∀ (op : Nat → Outcome T) (refresh : Nat → Except String Unit) (name : String)
        (v : T) (s : Nat) (e : RemoteError),
      1 ≤ cfg.maxRetries →
      op 0 = .err e → e.status = some 503 → e.retryAfter = some s →
      op 1 = .ok v →
      (executeWithRetry cfg (.ok ()) op refresh name).waits =
        [min cfg.initialDelayMs cfg.maxDelayMs]) := by
  refine ⟨?_, ?_, ?_, ?_⟩
  · intro op refresh name v n hn hfail hok
    have h := retryLoop_backoff_then_ok cfg op refresh name v n (cfg.maxRetries + 1) 0
      cfg.initialDelayMs 0 0 [] none (by omega) (by omega) (by simpa using hfail)
      (by simpa using hok)
    exact ⟨by simpa [executeWithRetry] using h.2.2, by simpa [executeWithRetry] using h.1⟩
  · intro op refresh name hfail
    have h := retryLoop_backoff_exhaust cfg op refresh name hfail (cfg.maxRetries + 1) 0
      cfg.initialDelayMs 0 0 [] none (by omega) (by omega)
    simpa [executeWithRetry] using h
  · intro op refresh name v s e0 e1 hmr h0 he0 hra0 h1 he1 h2
    obtain ⟨k, hk⟩ : ∃ k, cfg.maxRetries = k + 2 := ⟨cfg.maxRetries - 2, by omega⟩
    simp only [executeWithRetry]
    rw [hk, retryLoop_step429_hint cfg op refresh name (k + 2) 0 cfg.initialDelayMs 0 0
        [] none e0 s h0 he0 hra0 (by omega),
      show k + 2 = (k + 1) + 1 from rfl,
      retryLoop_step503 cfg op refresh name (k + 1) 1 (cfg.initialDelayMs * cfg.backoffMultiplier)
        1 0 ([] ++ [s * 1000]) (some e0) e1 h1 he1 (by omega),
      retryLoop_step_ok cfg op refresh name k 2
        (cfg.initialDelayMs * cfg.backoffMultiplier * cfg.backoffMultiplier) 2 0
        (([] ++ [s * 1000]) ++ [min (cfg.initialDelayMs * cfg.backoffMultiplier) cfg.maxDelayMs])
        (some e1) v h2]
    simp
  · intro op refresh name v s e hmr h0 he0 hra0 h1
    obtain ⟨k, hk⟩ : ∃ k, cfg.maxRetries = k + 1 := ⟨cfg.maxRetries - 1, by omega⟩
    simp only [executeWithRetry]
    rw [hk, retryLoop_step503 cfg op refresh name (k + 1) 0 cfg.initialDelayMs 0 0
        [] none e h0 he0 (by omega),
      retryLoop_step_ok cfg op refresh name k 1
        (cfg.initialDelayMs * cfg.backoffMultiplier) 1 0
        ([] ++ [min cfg.initialDelayMs cfg.maxDelayMs]) (some e) v h1]
    simp

/-- C3 witness: with the default policy, three 503s then success wait
1000ms, 2000ms, 4000ms; a 429 with a 2-second hint followed by a 503
waits 2000ms then 2000ms (the delay was still multiplied to 2000); a 503
carrying a hint of 7 seconds still waits 1000ms. -/
theorem backoff_arithmetic_witness :
    (executeWithRetry DEFAULT_RETRY_CONFIG (.ok ())
        (fun i => if i < 3 then Outcome.err (T := Nat) ⟨some 503, none, none, none, none⟩
          else .ok 7)
        (fun _ => .ok ()) "search tracks").waits = [1000, 2000, 4000] ∧
    (executeWithRetry DEFAULT_RETRY_CONFIG (.ok ())
        (fun i => if i = 0 then Outcome.err (T := Nat) ⟨some 429, none, some 2, none, none⟩
          else if i = 1 then Outcome.err ⟨some 503, none, none, none, none⟩
          else .ok 7)
        (fun _ => .ok ()) "search tracks").waits = [2000, 2000] ∧
    (executeWithRetry DEFAULT_RETRY_CONFIG (.ok ())
        (fun i => if i = 0 then Outcome.err (T := Nat) ⟨some 503, none, some 7, none, none⟩
          else .ok 7)
        (fun _ => .ok ()) "search tracks").waits = [1000] := by
  refine ⟨?_, ?_, ?_⟩
  · have h := (backoff_arithmetic (T := Nat) DEFAULT_RETRY_CONFIG).1
      (fun i => if i < 3 then Outcome.err ⟨some 503, none, none, none, none⟩ else .ok 7)
      (fun _ => .ok ()) "search tracks" 7 3 (by decide)
      (fun i hi => ⟨⟨some 503, none, none, none, none⟩, by simp [hi], Or.inr rfl⟩)
      (by norm_num)
    simpa using h.1
  · have h := (backoff_arithmetic (T := Nat) DEFAULT_RETRY_CONFIG).2.2.1
      (fun i => if i = 0 then Outcome.err ⟨some 429, none, some 2, none, none⟩
        else if i = 1 then Outcome.err ⟨some 503, none, none, none, none⟩ else .ok 7)
      (fun _ => .ok ()) "search tracks" 7 2
      ⟨some 429, none, some 2, none, none⟩ ⟨some 503, none, none, none, none⟩
      (by decide) rfl rfl rfl rfl rfl rfl
    simpa using h
  · have h := (backoff_arithmetic (T := Nat) DEFAULT_RETRY_CONFIG).2.2.2
      (fun i => if i = 0 then Outcome.err ⟨some 503, none, some 7, none, none⟩ else .ok 7)
      (fun _ => .ok ()) "search tracks" 7 7 ⟨some 503, none, some 7, none, none⟩
      (by decide) rfl rfl rfl rfl
    simpa using h

/-- C5: a first failure whose status is outside {401, 429, 503} — or
carries no recognizable status at all — is terminal on the spot: exactly
one invocation, no refresh, no backoff wait, and the classified
`handleError` error is raised; for status 404 its message is the
not-found wording. -/
theorem run_fatal_immediate {T : Type} (cfg : RetryConfig) (op : Nat → Outcome T)
    (refresh : Nat → Except String Unit) (name : String) (e : RemoteError)
    (hop : op 0 = .err e) (h401 : e.status ≠ some 401) (h429 : e.status ≠ some 429)
    (h503 : e.status ≠ some 503) :
    executeWithRetry cfg (.ok ()) op refresh name =
      ⟨.apiError (handleError e name), 1, 0, []⟩ ∧
    (e.status = some 404 →
      (handleError e name).message =
        "Resource not found. Please check the provided ID or URI.") := by
  constructor
  · simp [executeWithRetry, retryLoop, hop, h401, h429, h503]
  · intro h404
    simp [handleError, h404]

/-- C5 witness: a 404 failure raises immediately with the not-found
message after a single invocation. -/
theorem run_fatal_immediate_witness :
    executeWithRetry DEFAULT_RETRY_CONFIG (.ok ())
      (fun _ => Outcome.err (T := Nat) ⟨some 404, none, none, none, none⟩)
      (fun _ => .ok ()) "search tracks" =
      ⟨.apiError (handleError ⟨some 404, none, none, none, none⟩ "search tracks"), 1, 0, []⟩ ∧
    (handleError ⟨some 404, none, none, none, none⟩ "search tracks").message =
      "Resource not found. Please check the provided ID or URI." :=
  ⟨(run_fatal_immediate DEFAULT_RETRY_CONFIG
      (fun _ => Outcome.err ⟨some 404, none, none, none, none⟩) (fun _ => .ok ())
      "search tracks" ⟨some 404, none, none, none, none⟩ rfl
      (by decide) (by decide) (by decide)).1,
   (run_fatal_immediate (T := Nat) DEFAULT_RETRY_CONFIG
      (fun _ => Outcome.err ⟨some 404, none, none, none, none⟩) (fun _ => .ok ())
      "search tracks" ⟨some 404, none, none, none, none⟩ rfl
      (by decide) (by decide) (by decide)).2 rfl⟩

end SpotifyMCP
